import Mathlib

/-!
Verification of the certpro canvas field-editing core
(`src/static/js/builder.js`) against its specification.

The JavaScript source is shallowly embedded: fabric.js canvas objects
become the structure `CObj`, creation configs and serialized field
records become the structure `Config` (every key optional, as in the
wire format), and JS truthiness fallbacks (`a || b`) become the
`orQ` / `orZ` / `orS` helpers (`0`, `""`, `undefined` are falsy).
Pixel coordinates are rationals, matching JS numbers on the values the
editor manipulates; `Math.round` is `jsRound`.
-/

namespace CertPro

/-- JS `Math.round`: round half toward positive infinity. -/
def jsRound (q : ℚ) : ℤ := (q + 1/2).floor

/-- JS `x || d` for an optional number (`undefined` and `0` are falsy). -/
def orQ (c : Option ℚ) (d : ℚ) : ℚ :=
  match c with
  | some q => if q = 0 then d else q
  | none => d

/-- JS `x || d` for an optional integer (`undefined` and `0` are falsy). -/
def orZ (c : Option ℤ) (d : ℤ) : ℤ :=
  match c with
  | some n => if n = 0 then d else n
  | none => d

/-- JS `s || d` for an optional string (`undefined` and `""` are falsy). -/
def orS (c : Option String) (d : String) : String :=
  match c with
  | some s => if s = "" then d else s
  | none => d

/-- JS `s || d` for a string (`""` is falsy). -/
def orS1 (s d : String) : String := if s = "" then d else s

/-- The `fieldData` metadata object `builder.js` attaches to every canvas
object (`text.fieldData = {...}` / `placeholder.fieldData = {...}`). -/
structure FieldData where
  name : String
  type : String
  align : Option String := none
  font_family : Option String := none
  shape : Option String := none
deriving DecidableEq, Repr

/-- A fabric.js canvas object as used by `builder.js`: `ctype` is the
fabric object type (`"textbox"`, `"rect"` or `"circle"`); a circle keeps
`width = height = 2 * radius` as fabric does. -/
structure CObj where
  ctype : String
  left : ℚ
  top : ℚ
  width : ℚ := 0
  height : ℚ := 0
  scaleX : ℚ := 1
  scaleY : ℚ := 1
  radius : ℚ := 0
  text : String := ""
  fontSize : ℤ := 0
  fill : String := ""
  fontFamily : String := ""
  textAlign : String := ""
  fieldData : FieldData
deriving DecidableEq, Repr

/-- A creation config / persisted field record.  Every key is optional:
`createTextField(config = {})` reads whichever keys are present, and the
records emitted by `saveTemplate` and consumed by `loadExistingFields`
use the same shape. -/
structure Config where
  text : Option String := none
  name : Option String := none
  field_name : Option String := none
  field_type : Option String := none
  x : Option ℚ := none
  y : Option ℚ := none
  font_size : Option ℤ := none
  color : Option String := none
  font_family : Option String := none
  align : Option String := none
  width : Option ℚ := none
  height : Option ℚ := none
  shape : Option String := none
deriving DecidableEq, Repr

/-- `getFontFamily` from `builder.js`: fixed token → font-stack table. -/
def getFontFamily (token : String) : String :=
  if token = "default" then "Arial, sans-serif"
  else if token = "roboto" then "Roboto, sans-serif"
  else if token = "inter" then "Inter, sans-serif"
  else if token = "open_sans" then "Open Sans, sans-serif"
  else if token = "noto_sans" then "Noto Sans, sans-serif"
  else if token = "times" then "Times New Roman, serif"
  else "Arial, sans-serif"

/-- `config.name || config.field_name || `pre_${++fieldCounter}``:
returns the resolved name together with the (possibly incremented)
field counter; the counter only advances when the generated fallback
is actually used, as JS short-circuiting does. -/
def resolveName (nm fn : Option String) (pre : String) (cnt : ℕ) : String × ℕ :=
  match nm with
  | some s =>
    if s = "" then
      match fn with
      | some t => if t = "" then (pre ++ toString (cnt + 1), cnt + 1) else (t, cnt)
      | none => (pre ++ toString (cnt + 1), cnt + 1)
    else (s, cnt)
  | none =>
    match fn with
    | some t => if t = "" then (pre ++ toString (cnt + 1), cnt + 1) else (t, cnt)
    | none => (pre ++ toString (cnt + 1), cnt + 1)

/-- `createTextField(config)` from `builder.js`, on a canvas of size
`W × H` with current `fieldCounter = cnt`.  Returns the created object
and the new counter. -/
def createTextField (W H : ℚ) (cnt : ℕ) (c : Config) : CObj × ℕ :=
  let p := resolveName c.name c.field_name "text_" cnt
  ({ ctype := "textbox"
     left := orQ c.x (W / 2 - 75)
     top := orQ c.y (H / 2 - 20)
     width := 200
     height := 0
     scaleX := 1
     scaleY := 1
     radius := 0
     text := orS c.text "Sample Text"
     fontSize := orZ c.font_size 32
     fill := orS c.color "#ffffff"
     fontFamily := getFontFamily (orS c.font_family "default")
     textAlign := orS c.align "left"
     fieldData :=
       { name := p.1
         type := "text"
         align := some (orS c.align "left")
         font_family := some (orS c.font_family "default")
         shape := none } }, p.2)

/-- `createImageField(config)` from `builder.js`: a `"circle"` shape
makes a fabric Circle of radius `min(width, height) / 2`, anything else
a fabric Rect. -/
def createImageField (W H : ℚ) (cnt : ℕ) (c : Config) : CObj × ℕ :=
  let w := orQ c.width 150
  let h := orQ c.height 150
  let sh := orS c.shape "rect"
  let p := resolveName c.name c.field_name "image_" cnt
  let fd : FieldData :=
    { name := p.1, type := "image", align := none, font_family := none, shape := some sh }
  if sh = "circle" then
    let r := min w h / 2
    ({ ctype := "circle"
       left := orQ c.x (W / 2 - r)
       top := orQ c.y (H / 2 - r)
       width := 2 * r
       height := 2 * r
       scaleX := 1
       scaleY := 1
       radius := r
       fill := "rgba(255, 255, 255, 0.15)"
       fieldData := fd }, p.2)
  else
    ({ ctype := "rect"
       left := orQ c.x (W / 2 - w / 2)
       top := orQ c.y (H / 2 - h / 2)
       width := w
       height := h
       scaleX := 1
       scaleY := 1
       radius := 0
       fill := "rgba(255, 255, 255, 0.15)"
       fieldData := fd }, p.2)

/-- A user creation action: `createTextField` or `createImageField`
with the given config. -/
inductive Cmd where
  | text (c : Config)
  | image (c : Config)
deriving DecidableEq, Repr

/-- The config carried by a creation action. -/
def Cmd.cfg : Cmd → Config
  | .text c => c
  | .image c => c

/-- Run one creation action. -/
def createField (W H : ℚ) (cnt : ℕ) : Cmd → CObj × ℕ
  | .text c => createTextField W H cnt c
  | .image c => createImageField W H cnt c

/-- Run a sequence of creation actions, threading `fieldCounter`. -/
def buildFields (W H : ℚ) (cnt : ℕ) : List Cmd → List CObj × ℕ
  | [] => ([], cnt)
  | cmd :: rest =>
    let p := createField W H cnt cmd
    let q := buildFields W H p.2 rest
    (p.1 :: q.1, q.2)

/-- The record `saveTemplate` emits for one field object: the base keys
`field_name, name, field_type, x, y` plus the text keys for a text
field, or `width, height, shape` for an image field (circle sizes come
from `radius * 2`, others from `width * scaleX` / `height * scaleY`). -/
def serializeField (o : CObj) : Config :=
  let base : Config :=
    { field_name := some o.fieldData.name
      name := some o.fieldData.name
      field_type := some o.fieldData.type
      x := some ((jsRound o.left : ℤ) : ℚ)
      y := some ((jsRound o.top : ℤ) : ℚ) }
  if o.fieldData.type = "text" then
    { base with
      font_size := some (if o.fontSize = 0 then 32 else o.fontSize)
      color := some (orS1 o.fill "#ffffff")
      font_family := some (orS o.fieldData.font_family "default")
      align := some (orS o.fieldData.align (orS1 o.textAlign "left")) }
  else
    let w : ℤ := if o.ctype = "circle" then jsRound (o.radius * 2) else jsRound (o.width * o.scaleX)
    let h : ℤ := if o.ctype = "circle" then jsRound (o.radius * 2) else jsRound (o.height * o.scaleY)
    { base with
      width := some ((w : ℤ) : ℚ)
      height := some ((h : ℤ) : ℚ)
      shape := some (orS o.fieldData.shape "rect") }

/-- The field payload of `saveTemplate`: one record per field object. -/
def saveTemplate (os : List CObj) : List Config := os.map serializeField

/-- One step of `loadExistingFields`: dispatch a persisted record on
`field.field_type || "text"`; an unknown type creates nothing. -/
def hydrateRecord (W H : ℚ) (cnt : ℕ) (r : Config) : Option CObj × ℕ :=
  let ft := orS r.field_type "text"
  if ft = "text" then
    let p := createTextField W H cnt r
    (some p.1, p.2)
  else if ft = "image" then
    let p := createImageField W H cnt r
    (some p.1, p.2)
  else (none, cnt)

/-- `loadExistingFields` from `builder.js`: hydrate each record in
order through the creation paths, threading `fieldCounter`. -/
def loadExistingFields (W H : ℚ) (cnt : ℕ) : List Config → List CObj × ℕ
  | [] => ([], cnt)
  | r :: rs =>
    let p := hydrateRecord W H cnt r
    let q := loadExistingFields W H p.2 rs
    (match p.1 with
     | some o => o :: q.1
     | none => q.1, q.2)

/-! ### Property-panel update operations

Each `update*` function in `builder.js` first guards on
`selected.fieldData.type` and then mutates only the selected object, so
they are embedded as transformations of the selected object.  Numeric
panel inputs arrive through `parseInt(...) || dflt`; a non-numeric
input (JS `NaN`, falsy) is `none` here. -/

/-- `updateFontSize`: no-op unless the selected field is a text field. -/
def updateFontSize (o : CObj) (v : Option ℤ) : CObj :=
  if o.fieldData.type ≠ "text" then o
  else { o with fontSize := orZ v 32 }

/-- `updateTextContent`: no-op unless the selected field is a text field. -/
def updateTextContent (o : CObj) (s : String) : CObj :=
  if o.fieldData.type ≠ "text" then o
  else { o with text := s }

/-- `updateColor`: no-op unless the selected field is a text field. -/
def updateColor (o : CObj) (s : String) : CObj :=
  if o.fieldData.type ≠ "text" then o
  else { o with fill := s }

/-- `updateFontFamily`: no-op unless the selected field is a text field. -/
def updateFontFamily (o : CObj) (token : String) : CObj :=
  if o.fieldData.type ≠ "text" then o
  else { o with fontFamily := getFontFamily token
                fieldData := { o.fieldData with font_family := some token } }

/-- `setAlignment`: no-op unless the selected field is a text field. -/
def setAlignment (o : CObj) (a : String) : CObj :=
  if o.fieldData.type ≠ "text" then o
  else { o with textAlign := a
                fieldData := { o.fieldData with align := some a } }

/-- `updateImageSize`: no-op unless the selected field is an image
field; a circle collapses the two inputs to `radius = min(w, h) / 2`
(fabric keeps `width = height = 2 * radius` in step), a rect takes both
sizes and resets the scale factors to 1. -/
def updateImageSize (o : CObj) (wIn hIn : Option ℤ) : CObj :=
  if o.fieldData.type ≠ "image" then o
  else
    let w : ℤ := orZ wIn 150
    let h : ℤ := orZ hIn 150
    if o.ctype = "circle" then
      let r : ℚ := ((min w h : ℤ) : ℚ) / 2
      { o with radius := r, width := 2 * r, height := 2 * r }
    else
      { o with width := (w : ℚ), height := (h : ℚ), scaleX := 1, scaleY := 1 }

/-- `setShape`: no-op unless the selected field is an image field;
otherwise the object is destroyed and recreated through
`createImageField` with its current name, position and scaled size. -/
def setShape (W H : ℚ) (cnt : ℕ) (o : CObj) (sh : String) : CObj × ℕ :=
  if o.fieldData.type ≠ "image" then (o, cnt)
  else
    createImageField W H cnt
      { name := some o.fieldData.name
        x := some o.left
        y := some o.top
        width := some (if o.ctype = "circle" then o.radius * 2 else o.width * o.scaleX)
        height := some (if o.ctype = "circle" then o.radius * 2 else o.height * o.scaleY)
        shape := some sh }

/-! ### History manager

`undoStack` / `redoStack` hold opaque serialized snapshots
(`JSON.stringify(canvas.toJSON(...))` in the source); the snapshot type
is a parameter.  Stacks are lists with the head as the top (the end of
the JS array), so the JS `shift()` eviction of the oldest entry is
`dropLast`.  `current` is the serialized content of the live canvas. -/

structure Hist (α : Type) where
  undoStack : List α
  redoStack : List α
  current : α
deriving DecidableEq, Repr

/-- Fresh editor session: both stacks empty (`builder.js` pushes no
baseline snapshot at startup). -/
def initHist {α : Type} (a : α) : Hist α := ⟨[], [], a⟩

/-- `saveState`: push the current serialized state, clear `redoStack`,
and evict the oldest entry when the stack exceeds 50 snapshots. -/
def saveState {α : Type} (h : Hist α) : Hist α :=
  let u := h.current :: h.undoStack
  { undoStack := if 50 < u.length then u.dropLast else u
    redoStack := []
    current := h.current }

/-- A committed mutation: the live canvas changes to `v`, then
`saveState` runs (`canvas.on("object:modified", saveState)` and the
explicit `saveState()` calls at the end of each mutating function). -/
def commit {α : Type} (v : α) (h : Hist α) : Hist α :=
  saveState { h with current := v }

/-- `undo()`: no-op when the undo stack has at most one entry;
otherwise pop the top onto `redoStack` and restore the new top. -/
def undo {α : Type} (h : Hist α) : Hist α :=
  match h.undoStack with
  | cur :: prev :: rest =>
    { undoStack := prev :: rest, redoStack := cur :: h.redoStack, current := prev }
  | _ => h

/-- `redo()`: no-op when the redo stack is empty; otherwise pop it back
onto `undoStack` and restore it. -/
def redo {α : Type} (h : Hist α) : Hist α :=
  match h.redoStack with
  | [] => h
  | s :: rest =>
    { undoStack := s :: h.undoStack, redoStack := rest, current := s }

/-- A sequence of committed mutations. -/
def commitAll {α : Type} (h : Hist α) (vs : List α) : Hist α :=
  vs.foldl (fun h v => commit v h) h

/-! ### Snapping engine (not present under `src/`) -/

/-- Geometry of the object being dragged: top-left corner plus
already-scaled width/height. -/
structure DragObj where
  left : ℚ
  top : ℚ
  scaledW : ℚ
  scaledH : ℚ
deriving DecidableEq, Repr

/-- Outcome of one move-gesture update: possibly adjusted geometry and
which singleton guide lines are rendered. -/
structure SnapResult where
  left : ℚ
  top : ℚ
  vGuide : Bool
  hGuide : Bool
deriving DecidableEq, Repr

/-- Modelled from the spec: the snapping engine (§4.4) is absent from
the sources under `src/`; per the spec, on every move-gesture update
the center of the moving object is compared against the canvas center, and
within a 6-pixel tolerance the matching coordinate is forced onto the
center line and the corresponding guide is rendered, otherwise the
guide is removed and the coordinate is untouched. -/
def snapUpdate (W H : ℚ) (o : DragObj) : SnapResult :=
  let cx := o.left + o.scaledW / 2
  let cy := o.top + o.scaledH / 2
  let centerX := W / 2
  let centerY := H / 2
  let snapV : Bool := decide (|cx - centerX| < 6)
  let snapH : Bool := decide (|cy - centerY| < 6)
  { left := if snapV then centerX - o.scaledW / 2 else o.left
    top := if snapH then centerY - o.scaledH / 2 else o.top
    vGuide := snapV
    hGuide := snapH }

/-! ### Decimal digits, name generation, integrality -/

/-- Decimal digit list of `n`, most significant first. -/
def decDigits (n : ℕ) : List Char :=
  if _h : n < 10 then [Nat.digitChar n]
  else decDigits (n / 10) ++ [Nat.digitChar (n % 10)]
decreasing_by exact Nat.div_lt_self (by omega) (by omega)

/-- The name prefix a creation action uses for its generated fallback
name (`text_` / `image_`). -/
def namePre : Cmd → String
  | .text _ => "text_"
  | .image _ => "image_"

/-- A creation action whose config supplies no explicit `name` /
`field_name` (the toolbar `addText` / `addImagePlaceholder` path). -/
def Cmd.anon (cmd : Cmd) : Prop :=
  cmd.cfg.name = none ∧ cmd.cfg.field_name = none

/-- The names a run of anonymous creation actions will generate,
starting from counter `c`. -/
def namesFrom (c : ℕ) : List Cmd → List String
  | [] => []
  | cmd :: rest => (namePre cmd ++ Nat.repr (c + 1)) :: namesFrom (c + 1) rest

/-- An optional rational that, when present, is integer-valued. -/
def IsIntO (c : Option ℚ) : Prop := ∀ q ∈ c, ∃ n : ℤ, q = (n : ℚ)

/-- A config whose geometry entries (`x, y, width, height`) are
integer-valued wherever present, as the integer-pixel data model of
the spec prescribes. -/
def Config.intGeom (c : Config) : Prop :=
  IsIntO c.x ∧ IsIntO c.y ∧ IsIntO c.width ∧ IsIntO c.height

/-- A creation action with integer-valued geometry. -/
def Cmd.intGeom (cmd : Cmd) : Prop := cmd.cfg.intGeom

/-- An object that survives one serialize/hydrate cycle: hydrating its
serialized record (at any counter) recreates an object with the same
serialized record, without touching the counter. -/
def RoundTrips (W H : ℚ) (o : CObj) : Prop :=
  ∀ k, ∃ o', hydrateRecord W H k (serializeField o) = (some o', k) ∧
    serializeField o' = serializeField o

/-- The record `saveTemplate` emits for a field created by
`createTextField W H cnt c` (spelled out; proved equal to the
composition in `serialize_createTextField`). -/
def textRec (W H : ℚ) (cnt : ℕ) (c : Config) : Config :=
  { field_name := some (resolveName c.name c.field_name "text_" cnt).1
    name := some (resolveName c.name c.field_name "text_" cnt).1
    field_type := some "text"
    x := some ((jsRound (orQ c.x (W / 2 - 75)) : ℤ) : ℚ)
    y := some ((jsRound (orQ c.y (H / 2 - 20)) : ℤ) : ℚ)
    font_size := some (orZ c.font_size 32)
    color := some (orS c.color "#ffffff")
    font_family := some (orS c.font_family "default")
    align := some (orS c.align "left") }

/-- The record `saveTemplate` emits for a field created by
`createImageField W H cnt c` (spelled out; proved equal to the
composition in `serialize_createImageField`). -/
def imageRec (W H : ℚ) (cnt : ℕ) (c : Config) : Config :=
  let w := orQ c.width 150
  let h := orQ c.height 150
  let sh := orS c.shape "rect"
  let nm := (resolveName c.name c.field_name "image_" cnt).1
  if sh = "circle" then
    let r := min w h / 2
    { field_name := some nm
      name := some nm
      field_type := some "image"
      x := some ((jsRound (orQ c.x (W / 2 - r)) : ℤ) : ℚ)
      y := some ((jsRound (orQ c.y (H / 2 - r)) : ℤ) : ℚ)
      width := some ((jsRound (r * 2) : ℤ) : ℚ)
      height := some ((jsRound (r * 2) : ℤ) : ℚ)
      shape := some "circle" }
  else
    { field_name := some nm
      name := some nm
      field_type := some "image"
      x := some ((jsRound (orQ c.x (W / 2 - w / 2)) : ℤ) : ℚ)
      y := some ((jsRound (orQ c.y (H / 2 - h / 2)) : ℤ) : ℚ)
      width := some ((jsRound (w * 1) : ℤ) : ℚ)
      height := some ((jsRound (h * 1) : ℤ) : ℚ)
      shape := some sh }

/-! ### Concrete objects used by witnesses and counterexamples -/

/-- A rect-shaped image placeholder. -/
def imgObjW : CObj :=
  { ctype := "rect", left := 10, top := 20, width := 150, height := 150
    fill := "rgba(255, 255, 255, 0.15)"
    fieldData := { name := "pic", type := "image", shape := some "rect" } }

/-- A text field. -/
def txtObjW : CObj :=
  { ctype := "textbox", left := 10, top := 20, width := 200, fontSize := 32
    fill := "#ffffff", fontFamily := "Arial, sans-serif", textAlign := "left"
    fieldData := { name := "ttl", type := "text", align := some "left"
                   font_family := some "default" } }

/-- A circle image placeholder of radius 50. -/
def circObjW : CObj :=
  { ctype := "circle", left := 0, top := 0, width := 100, height := 100, radius := 50
    fill := "rgba(255, 255, 255, 0.15)"
    fieldData := { name := "ava", type := "image", shape := some "circle" } }

/-- The same circle after a gesture resize that doubled its scale
factors (fabric scales a circle without touching `radius`). -/
def circScaledW : CObj := { circObjW with scaleX := 2, scaleY := 2 }

/-! ## Theorems -/

/-! ### `jsRound` -/

/-- `jsRound` agrees with the mathematical floor of `q + 1/2`. -/
theorem jsRound_eq_floor (q : ℚ) : jsRound q = ⌊q + 1/2⌋ :=
  eq_of_forall_le_iff fun z => by rw [jsRound, Rat.le_floor, Int.le_floor]

/-- Evaluation rule for `jsRound` at a known answer. -/
theorem jsRound_eq_of (q : ℚ) (n : ℤ) (h1 : (n : ℚ) ≤ q + 1/2) (h2 : q + 1/2 < n + 1) :
    jsRound q = n := by
  rw [jsRound_eq_floor]
  exact Int.floor_eq_iff.mpr ⟨h1, h2⟩

/-- `Math.round` of an integer value is that integer. -/
theorem jsRound_intCast (n : ℤ) : jsRound ((n : ℤ) : ℚ) = n :=
  jsRound_eq_of _ _ (by linarith) (by linarith)

/-! ### Decimal representations are injective

`builder.js` derives fallback field names from `fieldCounter` via JS
string interpolation, embedded as `"text_" ++ toString (cnt + 1)`.
Distinctness of such names reduces to injectivity of `Nat.repr`, proved
through the clean structural recursion `decDigits`, shown equal to the
fuelled `Nat.toDigitsCore` from core. -/

theorem decDigits_of_lt {n : ℕ} (h : n < 10) : decDigits n = [Nat.digitChar n] := by
  rw [decDigits, dif_pos h]

theorem decDigits_of_ge {n : ℕ} (h : ¬ n < 10) :
    decDigits n = decDigits (n / 10) ++ [Nat.digitChar (n % 10)] := by
  rw [decDigits, dif_neg h]

theorem decDigits_ne_nil (n : ℕ) : decDigits n ≠ [] := by
  by_cases h : n < 10
  · rw [decDigits_of_lt h]; simp
  · rw [decDigits_of_ge h]; simp

/-- `Nat.digitChar` is injective on single digits. -/
theorem digitChar_inj_lt {a b : ℕ} (ha : a < 10) (hb : b < 10)
    (h : Nat.digitChar a = Nat.digitChar b) : a = b := by
  have key : ∀ i j : Fin 10, Nat.digitChar i.val = Nat.digitChar j.val → i = j := by decide
  have := key ⟨a, ha⟩ ⟨b, hb⟩ h
  exact congrArg Fin.val this

/-- The fuelled core loop computes `decDigits` when given enough fuel. -/
theorem toDigitsCore_eq_decDigits :
    ∀ (fuel n : ℕ) (ds : List Char), n < fuel →
      Nat.toDigitsCore 10 fuel n ds = decDigits n ++ ds := by
  intro fuel
  induction fuel with
  | zero => intro n ds h; omega
  | succ f ih =>
    intro n ds h
    by_cases h10 : n < 10
    · have hdiv : n / 10 = 0 := Nat.div_eq_of_lt h10
      have hmod : n % 10 = n := Nat.mod_eq_of_lt h10
      simp only [Nat.toDigitsCore, hdiv, hmod, if_pos, decDigits_of_lt h10]
      simp
    · have hdiv : ¬ n / 10 = 0 := by
        intro h0
        exact h10 (by omega)
      have hlt : n / 10 < f := by
        have h1 : n / 10 < n := Nat.div_lt_self (by omega) (by omega)
        omega
      simp only [Nat.toDigitsCore, hdiv, if_false, ih (n / 10) _ hlt,
        decDigits_of_ge h10, List.append_assoc, List.singleton_append]

/-- `Nat.repr` is the string of `decDigits`. -/
theorem repr_eq_decDigits (n : ℕ) : Nat.repr n = (decDigits n).asString := by
  rw [Nat.repr, Nat.toDigits, toDigitsCore_eq_decDigits (n + 1) n [] (by omega), List.append_nil]

/-- `decDigits` is injective. -/
theorem decDigits_inj : ∀ a b : ℕ, decDigits a = decDigits b → a = b := by
  intro a
  induction a using Nat.strong_induction_on with
  | _ a ih =>
    intro b h
    by_cases ha : a < 10 <;> by_cases hb : b < 10
    · rw [decDigits_of_lt ha, decDigits_of_lt hb] at h
      exact digitChar_inj_lt ha hb (List.singleton_inj.mp h)
    · exfalso
      rw [decDigits_of_lt ha, decDigits_of_ge hb] at h
      cases hd : decDigits (b / 10) with
      | nil => exact decDigits_ne_nil (b / 10) hd
      | cons x xs => rw [hd] at h; simp at h
    · exfalso
      rw [decDigits_of_ge ha, decDigits_of_lt hb] at h
      cases hd : decDigits (a / 10) with
      | nil => exact decDigits_ne_nil (a / 10) hd
      | cons x xs => rw [hd] at h; simp at h
    · rw [decDigits_of_ge ha, decDigits_of_ge hb] at h
      have hparts := List.append_inj' h (by simp)
      have hdiv : a / 10 = b / 10 :=
        ih (a / 10) (Nat.div_lt_self (by omega) (by omega)) _ hparts.1
      have hmod : a % 10 = b % 10 := by
        have := List.singleton_inj.mp hparts.2
        exact digitChar_inj_lt (Nat.mod_lt _ (by omega)) (Nat.mod_lt _ (by omega)) this
      omega

/-- `Nat.repr` is injective. -/
theorem repr_injective : Function.Injective Nat.repr := by
  intro a b h
  rw [repr_eq_decDigits, repr_eq_decDigits] at h
  exact decDigits_inj a b (by
    have := congrArg String.data h
    simpa [List.asString] using this)

/-! ### Generated field names -/

theorem namePre_cases (cmd : Cmd) : namePre cmd = "text_" ∨ namePre cmd = "image_" := by
  cases cmd <;> simp [namePre]

theorem toString_nat_eq_repr (n : ℕ) : toString n = Nat.repr n := rfl

/-- Two generated names with distinct counter values differ, whatever
mix of the two prefixes they use. -/
theorem genName_ne {p q : String}
    (hp : p = "text_" ∨ p = "image_") (hq : q = "text_" ∨ q = "image_")
    {a b : ℕ} (hab : a ≠ b) : p ++ Nat.repr a ≠ q ++ Nat.repr b := by
  intro h
  have hd := congrArg String.data h
  rw [String.data_append, String.data_append] at hd
  have htext : ("text_" : String).data = ['t', 'e', 'x', 't', '_'] := rfl
  have himage : ("image_" : String).data = ['i', 'm', 'a', 'g', 'e', '_'] := rfl
  have same : Nat.repr a = Nat.repr b → False := fun hr => hab (repr_injective hr)
  rcases hp with hp | hp <;> rcases hq with hq | hq <;> subst hp hq
  · exact same (String.ext (List.append_cancel_left hd))
  · rw [htext, himage] at hd; simp at hd
  · rw [htext, himage] at hd; simp at hd
  · exact same (String.ext (List.append_cancel_left hd))

theorem createField_anon (W H : ℚ) (cnt : ℕ) (cmd : Cmd) (h : cmd.anon) :
    (createField W H cnt cmd).1.fieldData.name = namePre cmd ++ Nat.repr (cnt + 1) ∧
      (createField W H cnt cmd).2 = cnt + 1 := by
  obtain ⟨h1, h2⟩ := h
  cases cmd with
  | text c =>
    simp only [Cmd.cfg] at h1 h2
    simp [createField, createTextField, resolveName, h1, h2, namePre, toString_nat_eq_repr]
  | image c =>
    simp only [Cmd.cfg] at h1 h2
    by_cases hsh : orS c.shape "rect" = "circle" <;>
      simp [createField, createImageField, resolveName, h1, h2, namePre, hsh,
        toString_nat_eq_repr]

theorem buildFields_names (W H : ℚ) :
    ∀ (cmds : List Cmd) (c : ℕ), (∀ cmd ∈ cmds, cmd.anon) →
      (buildFields W H c cmds).1.map (fun o => o.fieldData.name) = namesFrom c cmds := by
  intro cmds
  induction cmds with
  | nil => intro c _; simp [buildFields, namesFrom]
  | cons cmd rest ih =>
    intro c h
    have hc := createField_anon W H c cmd (h cmd (by simp))
    simp only [buildFields, namesFrom, List.map_cons, hc.1, hc.2]
    exact congrArg _ (ih (c + 1) fun x hx => h x (by simp [hx]))

theorem mem_namesFrom {x : String} :
    ∀ (cmds : List Cmd) (c : ℕ), x ∈ namesFrom c cmds →
      ∃ p k, (p = "text_" ∨ p = "image_") ∧ c < k ∧ x = p ++ Nat.repr k := by
  intro cmds
  induction cmds with
  | nil => intro c h; simp [namesFrom] at h
  | cons cmd rest ih =>
    intro c h
    rcases List.mem_cons.mp h with h | h
    · exact ⟨namePre cmd, c + 1, namePre_cases cmd, by omega, h⟩
    · obtain ⟨p, k, hp, hk, hx⟩ := ih (c + 1) h
      exact ⟨p, k, hp, by omega, hx⟩

theorem namesFrom_nodup : ∀ (cmds : List Cmd) (c : ℕ), (namesFrom c cmds).Nodup := by
  intro cmds
  induction cmds with
  | nil => intro c; simp [namesFrom]
  | cons cmd rest ih =>
    intro c
    rw [namesFrom, List.nodup_cons]
    refine ⟨fun hmem => ?_, ih (c + 1)⟩
    obtain ⟨p, k, hp, hk, hx⟩ := mem_namesFrom rest (c + 1) hmem
    exact genName_ne (namePre_cases cmd) hp (by omega) hx

/-! ### History manager lemmas -/

/-- One committed mutation caps the undo stack at its top 50 entries. -/
theorem commit_undoStack {α : Type} (v : α) (h : Hist α)
    (hle : h.undoStack.length ≤ 50) :
    (commit v h).undoStack = (v :: h.undoStack).take 50 := by
  simp only [commit, saveState]
  by_cases hlen : 50 < (v :: h.undoStack).length
  · have h50 : h.undoStack.length = 50 := by simp at hlen; omega
    rw [if_pos hlen, List.dropLast_eq_take]
    have hl : (v :: h.undoStack).length - 1 = 50 := by simp [h50]
    rw [hl]
  · rw [if_neg hlen, List.take_of_length_le (by simp at hlen ⊢; omega)]

theorem take_append_take {α : Type} (l₁ l₂ : List α) (n : ℕ) :
    (l₁ ++ l₂.take n).take n = (l₁ ++ l₂).take n := by
  rw [List.take_append_eq_append_take, List.take_append_eq_append_take, List.take_take,
    min_eq_left (Nat.sub_le _ _)]

theorem commitAll_cons {α : Type} (v : α) (vs : List α) (h : Hist α) :
    commitAll h (v :: vs) = commitAll (commit v h) vs := rfl

/-- After any run of committed mutations, the undo stack is the 50 most
recent snapshots (top of stack first). -/
theorem commitAll_undoStack {α : Type} :
    ∀ (vs : List α) (h : Hist α), h.undoStack.length ≤ 50 →
      (commitAll h vs).undoStack = (vs.reverse ++ h.undoStack).take 50 := by
  intro vs
  induction vs with
  | nil =>
    intro h hle
    simp [commitAll, List.take_of_length_le hle]
  | cons v vs ih =>
    intro h hle
    rw [commitAll_cons, ih (commit v h) (by rw [commit_undoStack v h hle]; simp),
      commit_undoStack v h hle, take_append_take]
    simp

/-! ### Claim C8: undo/redo underflow -/

/-- C8: calling `undo()` when the undo stack has at most one entry, or
`redo()` when the redo stack is empty, is a no-op: both stacks and the
live field set are left unchanged (the operations are total, so no
error is raised). -/
theorem undo_redo_underflow_noop {α : Type} (h : Hist α) :
    (h.undoStack.length ≤ 1 → undo h = h) ∧ (h.redoStack = [] → redo h = h) := by
  obtain ⟨u, r, cur⟩ := h
  constructor
  · intro hlen
    match u, hlen with
    | [], _ => rfl
    | [a], _ => rfl
    | a :: b :: t, hlen => simp at hlen
  · intro hr
    simp only at hr
    subst hr
    rfl

/-- Witness for C8 at a one-entry undo stack and empty redo stack. -/
theorem undo_redo_underflow_noop_witness :
    undo (⟨[7], [], 7⟩ : Hist ℕ) = ⟨[7], [], 7⟩ ∧
      redo (⟨[7], [], 7⟩ : Hist ℕ) = ⟨[7], [], 7⟩ :=
  ⟨(undo_redo_underflow_noop ⟨[7], [], 7⟩).1 (by decide),
   (undo_redo_underflow_noop ⟨[7], [], 7⟩).2 rfl⟩

/-! ### Claim C2: undo/redo inverse law -/

/-- C2 (counterexample to the claim as stated): for the first committed
mutation of a session (both stacks empty, as after loading a template
with no existing fields), `undo()` does not restore the pre-mutation
state: the stack holds only the post-mutation snapshot, so `undo` is a
no-op and the live state stays `1` instead of returning to `0`. -/
theorem undo_first_commit_cex :
    (undo (commit 1 (initHist (0 : ℕ)))).current ≠ 0 := by decide

/-- C2 (amended): provided a pre-mutation snapshot is on top of the
undo stack (`undoStack` nonempty with its top equal to the current
serialized state — true after any earlier commit), `undo()` right
after a committed mutation restores the pre-mutation serialized state
exactly, and `redo()` right after that restores the post-mutation
state exactly. -/
theorem undo_redo_inverse {α : Type} (h : Hist α) (v : α)
    (hh : h.undoStack.head? = some h.current) :
    (undo (commit v h)).current = h.current ∧
      (redo (undo (commit v h))).current = v := by
  obtain ⟨u, r, cur⟩ := h
  cases u with
  | nil => simp at hh
  | cons t rest =>
    simp only [List.head?_cons, Option.some.injEq] at hh
    subst hh
    by_cases hlen : 50 < (v :: t :: rest).length
    · have hr : rest ≠ [] := by
        intro h0
        subst h0
        simp at hlen
      simp only [commit, saveState, if_pos hlen, List.dropLast_cons₂]
      rw [List.dropLast_cons_of_ne_nil hr]
      exact ⟨rfl, rfl⟩
    · simp only [commit, saveState, if_neg hlen]
      exact ⟨rfl, rfl⟩

/-- Witness for C2 (amended) on a session whose undo stack top matches
the live state. -/
theorem undo_redo_inverse_witness :
    (undo (commit 2 (⟨[1], [], 1⟩ : Hist ℕ))).current = 1 ∧
      (redo (undo (commit 2 (⟨[1], [], 1⟩ : Hist ℕ)))).current = 2 :=
  undo_redo_inverse ⟨[1], [], 1⟩ 2 rfl

/-! ### Claim C6: bounded history -/

/-- C6: after any number of committed mutations the undo stack holds at
most 50 snapshots, and once more than 50 mutations have been committed
the oldest surviving snapshot (the bottom of the stack) is the one at
position `total − 50` (0-indexed) in the mutation sequence. -/
theorem history_bound {α : Type} (a : α) (vs : List α) :
    (commitAll (initHist a) vs).undoStack.length ≤ 50 ∧
    (50 < vs.length →
      (commitAll (initHist a) vs).undoStack.getLast? = vs[vs.length - 50]?) := by
  have hstack : (commitAll (initHist a) vs).undoStack = vs.reverse.take 50 := by
    rw [commitAll_undoStack vs (initHist a) (by simp [initHist])]
    simp [initHist]
  constructor
  · rw [hstack]
    simp
  · intro hlen
    rw [hstack]
    have hlen50 : (vs.reverse.take 50).length = 50 := by simp; omega
    rw [List.getLast?_eq_getElem?, hlen50, List.getElem?_take_of_lt (by omega),
      List.getElem?_reverse (by simp; omega)]
    congr 1

/-- Witness for C6: 51 mutations leave 50 snapshots whose oldest is the
mutation at position 1. -/
theorem history_bound_witness :
    (commitAll (initHist (0 : ℕ)) (List.range 51)).undoStack.length ≤ 50 ∧
      (commitAll (initHist (0 : ℕ)) (List.range 51)).undoStack.getLast? = some 1 := by
  refine ⟨(history_bound 0 (List.range 51)).1, ?_⟩
  rw [(history_bound 0 (List.range 51)).2 (by simp)]
  decide

/-! ### Claim C7: kind-mismatch edits are silent no-ops -/

/-- C7: applying a text-only edit (font size, text content, color, font
family, alignment) while the active field is an image field, or an
image-only edit (width/height, shape) while the active field is a text
field, leaves the field set untouched; the operations are total
functions, so no error is raised. -/
theorem kind_mismatch_noop (o : CObj) (v wIn hIn : Option ℤ)
    (s col tok al sh : String) (W H : ℚ) (cnt : ℕ) :
    (o.fieldData.type = "image" →
      updateFontSize o v = o ∧ updateTextContent o s = o ∧ updateColor o col = o ∧
        updateFontFamily o tok = o ∧ setAlignment o al = o) ∧
    (o.fieldData.type = "text" →
      updateImageSize o wIn hIn = o ∧ setShape W H cnt o sh = (o, cnt)) := by
  constructor
  · intro ht
    simp [updateFontSize, updateTextContent, updateColor, updateFontFamily, setAlignment, ht]
  · intro ht
    simp [updateImageSize, setShape, ht]

/-- Witness for C7: a font-size edit on an image field and a size/shape
edit on a text field are both identities. -/
theorem kind_mismatch_noop_witness :
    (updateFontSize imgObjW (some 20) = imgObjW ∧
      updateTextContent imgObjW "x" = imgObjW ∧ updateColor imgObjW "#000000" = imgObjW ∧
      updateFontFamily imgObjW "roboto" = imgObjW ∧ setAlignment imgObjW "center" = imgObjW) ∧
    (updateImageSize txtObjW (some 80) (some 60) = txtObjW ∧
      setShape 400 300 0 txtObjW "circle" = (txtObjW, 0)) :=
  ⟨(kind_mismatch_noop imgObjW (some 20) (some 80) (some 60) "x" "#000000" "roboto" "center"
      "circle" 400 300 0).1 rfl,
   (kind_mismatch_noop txtObjW (some 20) (some 80) (some 60) "x" "#000000" "roboto" "center"
      "circle" 400 300 0).2 rfl⟩

/-! ### Fallback-helper lemmas (round-trip infrastructure) -/

theorem orS_some_ne {s : String} (d : String) (hs : s ≠ "") : orS (some s) d = s := by
  simp [orS, hs]

theorem orS_ne_empty (c : Option String) {d : String} (hd : d ≠ "") : orS c d ≠ "" := by
  rcases c with _ | s
  · simpa [orS] using hd
  · by_cases hs : s = "" <;> simp [orS, hs, hd]

theorem orS1_ne {s : String} (d : String) (hs : s ≠ "") : orS1 s d = s := by
  simp [orS1, hs]

theorem orZ_some_ne {n : ℤ} (d : ℤ) (hn : n ≠ 0) : orZ (some n) d = n := by
  simp [orZ, hn]

theorem orZ_ne_zero (c : Option ℤ) {d : ℤ} (hd : d ≠ 0) : orZ c d ≠ 0 := by
  rcases c with _ | n
  · simpa [orZ] using hd
  · by_cases hn : n = 0 <;> simp [orZ, hn, hd]

theorem orQ_some_ne {q : ℚ} (d : ℚ) (hq : q ≠ 0) : orQ (some q) d = q := by
  simp [orQ, hq]

/-- An integer-valued optional coordinate resolves to a nonzero integer
when the fallback is a nonzero integer. -/
theorem orQ_int_ne {c : Option ℚ} (hc : IsIntO c) {d : ℚ}
    (hd : ∃ m : ℤ, d = ((m : ℤ) : ℚ) ∧ m ≠ 0) :
    ∃ n : ℤ, orQ c d = ((n : ℤ) : ℚ) ∧ n ≠ 0 := by
  obtain ⟨m, hm, hm0⟩ := hd
  rcases c with _ | q
  · exact ⟨m, hm, hm0⟩
  · by_cases hq : q = 0
    · exact ⟨m, by simp [orQ, hq, hm], hm0⟩
    · obtain ⟨n, hn⟩ := hc q rfl
      refine ⟨n, ?_, fun h0 => hq ?_⟩
      · rw [orQ_some_ne _ hq, hn]
      · rw [hn, h0, Int.cast_zero]

/-- The key coordinate round-trip: serializing a resolved coordinate
with `Math.round` and resolving it again through the same `|| default`
fallback preserves the rounded value, provided the original config
entry was absent or integer-valued. -/
theorem orQ_serial_roundtrip {c : Option ℚ} (d : ℚ) (hc : IsIntO c) :
    jsRound (orQ (some ((jsRound (orQ c d) : ℤ) : ℚ)) d) = jsRound (orQ c d) := by
  by_cases hk : jsRound (orQ c d) = 0
  · have hd0 : jsRound d = 0 := by
      rcases c with _ | q
      · simpa [orQ] using hk
      · by_cases hq : q = 0
        · simpa [orQ, hq] using hk
        · exfalso
          obtain ⟨n, hn⟩ := hc q rfl
          rw [orQ_some_ne d hq, hn, jsRound_intCast] at hk
          exact hq (by rw [hn, hk, Int.cast_zero])
    rw [hk, Int.cast_zero]
    have h0d : orQ (some (0 : ℚ)) d = d := by simp [orQ]
    rw [h0d, hd0]
  · have hne : ((jsRound (orQ c d) : ℤ) : ℚ) ≠ 0 := by
      exact_mod_cast hk
    rw [orQ_some_ne d hne, jsRound_intCast]

/-! ### `serializeField` projections -/

theorem serializeField_field_name (o : CObj) :
    (serializeField o).field_name = some o.fieldData.name := by
  rw [serializeField]
  split <;> rfl

theorem serializeField_name (o : CObj) :
    (serializeField o).name = some o.fieldData.name := by
  rw [serializeField]
  split <;> rfl

theorem serializeField_field_type (o : CObj) :
    (serializeField o).field_type = some o.fieldData.type := by
  rw [serializeField]
  split <;> rfl

theorem serializeField_x (o : CObj) :
    (serializeField o).x = some ((jsRound o.left : ℤ) : ℚ) := by
  rw [serializeField]
  split <;> rfl

theorem serializeField_y (o : CObj) :
    (serializeField o).y = some ((jsRound o.top : ℤ) : ℚ) := by
  rw [serializeField]
  split <;> rfl

/-! ### `resolveName` lemmas -/

theorem append_repr_ne_empty (pre : String) (hpre : pre.data ≠ []) (n : ℕ) :
    pre ++ toString n ≠ "" := by
  intro h
  have hd := congrArg String.data h
  rw [String.data_append] at hd
  have : pre.data = [] := (List.append_eq_nil.mp hd).1
  exact hpre this

theorem resolveName_fst_ne (nm fn : Option String) (pre : String) (cnt : ℕ)
    (hpre : pre.data ≠ []) : (resolveName nm fn pre cnt).1 ≠ "" := by
  rcases nm with _ | s <;> rcases fn with _ | t
  · exact append_repr_ne_empty pre hpre (cnt + 1)
  · by_cases ht : t = "" <;> simp [resolveName, ht]
    exact append_repr_ne_empty pre hpre (cnt + 1)
  · by_cases hs : s = "" <;> simp [resolveName, hs]
    exact append_repr_ne_empty pre hpre (cnt + 1)
  · by_cases hs : s = "" <;> by_cases ht : t = "" <;> simp [resolveName, hs, ht]
    exact append_repr_ne_empty pre hpre (cnt + 1)

theorem resolveName_some {nm : String} (fn : Option String) (pre : String) (cnt : ℕ)
    (h : nm ≠ "") : resolveName (some nm) fn pre cnt = (nm, cnt) := by
  simp [resolveName, h]

/-! ### Round-trip of created text fields -/

/-- Serializing a freshly created text field yields `textRec`. -/
theorem serialize_createTextField (W H : ℚ) (cnt : ℕ) (c : Config) :
    serializeField (createTextField W H cnt c).1 = textRec W H cnt c := by
  have hfs : orZ c.font_size 32 ≠ 0 := orZ_ne_zero _ (by decide)
  have hfill : orS c.color "#ffffff" ≠ "" := orS_ne_empty _ (by decide)
  have hal : orS c.align "left" ≠ "" := orS_ne_empty _ (by decide)
  have htk : orS c.font_family "default" ≠ "" := orS_ne_empty _ (by decide)
  simp [serializeField, createTextField, textRec, hfs, orS1_ne _ hfill,
    orS_some_ne _ hal, orS_some_ne _ htk]

/-- Hydrating a `textRec` recreates a text field and leaves the field
counter alone (the record carries a non-empty name). -/
theorem hydrate_textRec (W H : ℚ) (cnt k : ℕ) (c : Config) :
    hydrateRecord W H k (textRec W H cnt c) =
      (some (createTextField W H k (textRec W H cnt c)).1, k) := by
  have hnm : (resolveName c.name c.field_name "text_" cnt).1 ≠ "" :=
    resolveName_fst_ne _ _ _ _ (by decide)
  have hft : (textRec W H cnt c).field_type = some "text" := rfl
  have hcnt : (createTextField W H k (textRec W H cnt c)).2 = k := by
    simp [createTextField, textRec, resolveName_some _ _ _ hnm]
  simp [hydrateRecord, hft, orS, hcnt]

/-- Re-serializing the hydrated text field gives back the record. -/
theorem serialize_hydrated_text (W H : ℚ) (cnt k : ℕ) (c : Config)
    (hx : IsIntO c.x) (hy : IsIntO c.y) :
    serializeField (createTextField W H k (textRec W H cnt c)).1 = textRec W H cnt c := by
  have hnm : (resolveName c.name c.field_name "text_" cnt).1 ≠ "" :=
    resolveName_fst_ne _ _ _ _ (by decide)
  have hfs : orZ c.font_size 32 ≠ 0 := orZ_ne_zero _ (by decide)
  have hfill : orS c.color "#ffffff" ≠ "" := orS_ne_empty _ (by decide)
  have hal : orS c.align "left" ≠ "" := orS_ne_empty _ (by decide)
  have htk : orS c.font_family "default" ≠ "" := orS_ne_empty _ (by decide)
  rw [serialize_createTextField W H k (textRec W H cnt c)]
  simp [textRec, resolveName_some _ _ _ hnm, orQ_serial_roundtrip _ hx,
    orQ_serial_roundtrip _ hy, orZ_some_ne _ hfs, orS_some_ne _ hfill,
    orS_some_ne _ hal, orS_some_ne _ htk]

/-- A text field created from an integer-geometry config round-trips
through serialization and hydration. -/
theorem createTextField_roundTrips (W H : ℚ) (cnt : ℕ) (c : Config)
    (hx : IsIntO c.x) (hy : IsIntO c.y) :
    RoundTrips W H (createTextField W H cnt c).1 := by
  intro k
  refine ⟨(createTextField W H k (textRec W H cnt c)).1, ?_, ?_⟩
  · rw [serialize_createTextField]
    exact hydrate_textRec W H cnt k c
  · rw [serialize_createTextField W H cnt c]
    exact serialize_hydrated_text W H cnt k c hx hy

/-! ### Round-trip of created image fields -/

/-- Serializing a freshly created image field yields `imageRec`. -/
theorem serialize_createImageField (W H : ℚ) (cnt : ℕ) (c : Config) :
    serializeField (createImageField W H cnt c).1 = imageRec W H cnt c := by
  have hshne : orS c.shape "rect" ≠ "" := orS_ne_empty _ (by decide)
  have hcirc2 : orS (some "circle") "rect" = "circle" := by simp [orS]
  by_cases hsh : orS c.shape "rect" = "circle" <;>
    simp [serializeField, createImageField, imageRec, hsh, hcirc2, orS_some_ne _ hshne]

/-- Hydrating an `imageRec` recreates an image field and leaves the
field counter alone. -/
theorem hydrate_imageRec (W H : ℚ) (cnt k : ℕ) (c : Config) :
    hydrateRecord W H k (imageRec W H cnt c) =
      (some (createImageField W H k (imageRec W H cnt c)).1, k) := by
  have hnm : (resolveName c.name c.field_name "image_" cnt).1 ≠ "" :=
    resolveName_fst_ne _ _ _ _ (by decide)
  have hcirc2 : orS (some "circle") "rect" = "circle" := by simp [orS]
  have hshne : orS c.shape "rect" ≠ "" := orS_ne_empty _ (by decide)
  have hcnt : (createImageField W H k (imageRec W H cnt c)).2 = k := by
    by_cases hsh : orS c.shape "rect" = "circle" <;>
      simp [createImageField, imageRec, hsh, hcirc2, orS_some_ne _ hshne,
        resolveName_some _ _ _ hnm]
  have hft : (imageRec W H cnt c).field_type = some "image" := by
    by_cases hsh : orS c.shape "rect" = "circle" <;> simp [imageRec, hsh]
  simp [hydrateRecord, hft, orS, hcnt]

/-- The sizes a config with integer geometry resolves to, as nonzero
integers. -/
theorem image_size_int {c : Option ℚ} (hc : IsIntO c) :
    ∃ n : ℤ, orQ c 150 = ((n : ℤ) : ℚ) ∧ n ≠ 0 :=
  orQ_int_ne hc ⟨150, by norm_num, by norm_num⟩

/-- Re-serializing the hydrated image field gives back the record. -/
theorem serialize_hydrated_image (W H : ℚ) (cnt k : ℕ) (c : Config)
    (hx : IsIntO c.x) (hy : IsIntO c.y) (hw : IsIntO c.width) (hh : IsIntO c.height) :
    serializeField (createImageField W H k (imageRec W H cnt c)).1 = imageRec W H cnt c := by
  have hnm : (resolveName c.name c.field_name "image_" cnt).1 ≠ "" :=
    resolveName_fst_ne _ _ _ _ (by decide)
  obtain ⟨nw, hnw, hnw0⟩ := image_size_int hw
  obtain ⟨nh, hnh, hnh0⟩ := image_size_int hh
  rw [serialize_createImageField W H k (imageRec W H cnt c)]
  by_cases hsh : orS c.shape "rect" = "circle"
  · -- circle: the serialized diameter hydrates to an equal radius
    have hmin : min (orQ c.width 150) (orQ c.height 150) = ((min nw nh : ℤ) : ℚ) := by
      rw [hnw, hnh, Int.cast_min]
    have hM0 : min nw nh ≠ 0 := by
      rcases le_total nw nh with hle | hle
      · rw [min_eq_left hle]; exact hnw0
      · rw [min_eq_right hle]; exact hnh0
    have hMne : ((min nw nh : ℤ) : ℚ) ≠ 0 := by exact_mod_cast hM0
    have hjr : jsRound (min (orQ c.width 150) (orQ c.height 150)) = min nw nh := by
      rw [hmin, jsRound_intCast]
    have hwid : orQ (some ((jsRound (min (orQ c.width 150) (orQ c.height 150)) : ℤ) : ℚ))
        150 = min (orQ c.width 150) (orQ c.height 150) := by
      rw [hjr, orQ_some_ne _ hMne, hmin]
    have hcirc2 : orS (some "circle") "rect" = "circle" := by simp [orS]
    simp only [imageRec, hsh, if_pos, hcirc2, if_true]
    simp [resolveName_some _ _ _ hnm, min_self]
    rw [hwid]
    exact ⟨orQ_serial_roundtrip _ hx, orQ_serial_roundtrip _ hy, rfl⟩
  · -- rect: width and height hydrate unchanged
    have hshne : orS c.shape "rect" ≠ "" := orS_ne_empty _ (by decide)
    have hwcast : ((nw : ℤ) : ℚ) ≠ 0 := by exact_mod_cast hnw0
    have hhcast : ((nh : ℤ) : ℚ) ≠ 0 := by exact_mod_cast hnh0
    have hwid : orQ (some ((jsRound (orQ c.width 150) : ℤ) : ℚ)) 150 = orQ c.width 150 := by
      rw [hnw, jsRound_intCast, orQ_some_ne _ hwcast]
    have hhei : orQ (some ((jsRound (orQ c.height 150) : ℤ) : ℚ)) 150 = orQ c.height 150 := by
      rw [hnh, jsRound_intCast, orQ_some_ne _ hhcast]
    simp only [imageRec, hsh, if_false, orS_some_ne _ hshne]
    simp [resolveName_some _ _ _ hnm, hsh]
    rw [hwid, hhei]
    exact ⟨orQ_serial_roundtrip _ hx, orQ_serial_roundtrip _ hy, rfl, rfl⟩

/-- An image field created from an integer-geometry config round-trips
through serialization and hydration. -/
theorem createImageField_roundTrips (W H : ℚ) (cnt : ℕ) (c : Config)
    (hx : IsIntO c.x) (hy : IsIntO c.y) (hw : IsIntO c.width) (hh : IsIntO c.height) :
    RoundTrips W H (createImageField W H cnt c).1 := by
  intro k
  refine ⟨(createImageField W H k (imageRec W H cnt c)).1, ?_, ?_⟩
  · rw [serialize_createImageField]
    exact hydrate_imageRec W H cnt k c
  · rw [serialize_createImageField W H cnt c]
    exact serialize_hydrated_image W H cnt k c hx hy hw hh

/-! ### Round-trip at the field-set level -/

theorem isIntO_none : IsIntO none := fun _ hq => by simp at hq

/-- Hydrating the saved records of a list of round-tripping objects
reproduces a list with identical saved records. -/
theorem load_save_roundtrip (W H : ℚ) :
    ∀ (os : List CObj) (k : ℕ), (∀ o ∈ os, RoundTrips W H o) →
      saveTemplate (loadExistingFields W H k (saveTemplate os)).1 = saveTemplate os := by
  intro os
  induction os with
  | nil => intro k _; simp [saveTemplate, loadExistingFields]
  | cons o os ih =>
    intro k h
    obtain ⟨o', ho1, ho2⟩ := h o (by simp) k
    simp only [saveTemplate, List.map_cons, loadExistingFields, ho1]
    have htail := ih k fun x hx => h x (by simp [hx])
    simp only [saveTemplate] at htail
    simp [ho2, htail]

/-- Every field built from integer-geometry creation configs
round-trips. -/
theorem buildFields_roundTrips (W H : ℚ) :
    ∀ (cmds : List Cmd) (k : ℕ), (∀ cmd ∈ cmds, cmd.intGeom) →
      ∀ o ∈ (buildFields W H k cmds).1, RoundTrips W H o := by
  intro cmds
  induction cmds with
  | nil => intro k _ o ho; simp [buildFields] at ho
  | cons cmd rest ih =>
    intro k h o ho
    rcases List.mem_cons.mp ho with ho | ho
    · subst ho
      have hg := h cmd (by simp)
      cases cmd with
      | text c => exact createTextField_roundTrips W H k c hg.1 hg.2.1
      | image c => exact createImageField_roundTrips W H k c hg.1 hg.2.1 hg.2.2.1 hg.2.2.2
    · exact ih _ (fun x hx => h x (by simp [hx])) o ho

/-! ### Claim C1: serialize/hydrate round-trip -/

/-- C1 (counterexample to the claim as stated): a text field created at
the fractional coordinate `x = 2/5` does not round-trip.  `Math.round`
serializes its position as `x = 0`, which is falsy, so hydration
(`config.x || canvas.width / 2 - 75`) discards it and recreates the
field at the default position 125 on a 400×300 canvas: both the
serialized records and the raw field geometry differ after one
save/load cycle. -/
theorem roundtrip_cex :
    (saveTemplate (loadExistingFields 400 300 0
        (saveTemplate (buildFields 400 300 0 [Cmd.text { x := some (2/5) }]).1)).1 ≠
      saveTemplate (buildFields 400 300 0 [Cmd.text { x := some (2/5) }]).1) ∧
    ((loadExistingFields 400 300 0
        (saveTemplate (buildFields 400 300 0 [Cmd.text { x := some (2/5) }]).1)).1.map
          CObj.left ≠
      (buildFields 400 300 0 [Cmd.text { x := some (2/5) }]).1.map CObj.left) := by
  have hne0 : (2/5 : ℚ) ≠ 0 := by norm_num
  have hb : (buildFields 400 300 0 [Cmd.text { x := some (2/5) }]).1 =
      [(createTextField 400 300 0 { x := some (2/5) }).1] := rfl
  have hleft : (createTextField 400 300 0 ({ x := some (2/5) } : Config)).1.left = 2/5 := by
    show orQ (some (2/5)) (400 / 2 - 75) = 2/5
    exact orQ_some_ne _ hne0
  have hx0 : jsRound (2/5 : ℚ) = 0 := jsRound_eq_of _ 0 (by norm_num) (by norm_num)
  have hserx : (serializeField
      (createTextField 400 300 0 ({ x := some (2/5) } : Config)).1).x = some 0 := by
    rw [serializeField_x, hleft, hx0, Int.cast_zero]
  have hft : (serializeField
      (createTextField 400 300 0 ({ x := some (2/5) } : Config)).1).field_type =
      some "text" := by
    rw [serializeField_field_type]
    rfl
  have hload : (loadExistingFields 400 300 0
      [serializeField (createTextField 400 300 0 ({ x := some (2/5) } : Config)).1]).1 =
      [(createTextField 400 300 0
        (serializeField (createTextField 400 300 0 ({ x := some (2/5) } : Config)).1)).1] := by
    simp [loadExistingFields, hydrateRecord, hft, orS]
  have hleft1 : (createTextField 400 300 0
      (serializeField (createTextField 400 300 0 ({ x := some (2/5) } : Config)).1)).1.left =
      125 := by
    show orQ (serializeField
      (createTextField 400 300 0 ({ x := some (2/5) } : Config)).1).x (400 / 2 - 75) = 125
    rw [hserx]
    norm_num [orQ]
  have h125 : jsRound (125 : ℚ) = 125 := jsRound_eq_of _ 125 (by norm_num) (by norm_num)
  constructor
  · intro h
    rw [hb] at h
    simp only [saveTemplate, List.map_cons, List.map_nil] at h
    rw [hload] at h
    have hxx := congrArg (fun l => l.map Config.x) h
    simp only [List.map_cons, List.map_nil, List.cons.injEq, and_true] at hxx
    rw [serializeField_x, hleft1, h125, hserx] at hxx
    have := Option.some.inj hxx
    norm_num at this
  · intro h
    rw [hb] at h
    simp only [saveTemplate, List.map_cons, List.map_nil] at h
    rw [hload] at h
    simp only [List.map_cons, List.map_nil, List.cons.injEq, and_true] at h
    rw [hleft1, hleft] at h
    norm_num at h

/-- C1 (amended): for field sets built through the creation paths from
configs whose geometry entries are integers (the integer-pixel
data model; fractional coordinates need not round-trip, see the
counterexample), hydrating the records produced by `saveTemplate`
reproduces a field set with identical serialized records — hence equal
`kind, x, y, width, height, shape, font_size, color, font_family,
align` as resolved integer-pixel attributes — and the `field_name` of
every field round-trips unchanged. -/
theorem roundtrip_amended (W H : ℚ) (cmds : List Cmd) (k : ℕ)
    (h : ∀ cmd ∈ cmds, cmd.intGeom) :
    saveTemplate (loadExistingFields W H k
        (saveTemplate (buildFields W H 0 cmds).1)).1 =
      saveTemplate (buildFields W H 0 cmds).1 ∧
    (loadExistingFields W H k (saveTemplate (buildFields W H 0 cmds).1)).1.map
        (fun o => o.fieldData.name) =
      (buildFields W H 0 cmds).1.map (fun o => o.fieldData.name) := by
  have hmain := load_save_roundtrip W H (buildFields W H 0 cmds).1 k
    (buildFields_roundTrips W H cmds 0 h)
  refine ⟨hmain, ?_⟩
  have hfn : ∀ l : List CObj,
      (saveTemplate l).map Config.field_name = l.map (fun o => some o.fieldData.name) := by
    intro l
    simp [saveTemplate, serializeField_field_name, Function.comp]
  have hmap := congrArg (List.map Config.field_name) hmain
  rw [hfn, hfn] at hmap
  have hsome : ∀ l : List CObj,
      l.map (fun o => some o.fieldData.name) =
        (l.map fun o => o.fieldData.name).map some := by
    intro l
    simp [Function.comp]
  rw [hsome, hsome] at hmap
  exact List.map_injective_iff.mpr (Option.some_injective _) hmap

/-- Witness for C1 (amended): a default text field and a default circle
image field round-trip on a 400×300 canvas. -/
theorem roundtrip_amended_witness :
    saveTemplate (loadExistingFields 400 300 0
        (saveTemplate (buildFields 400 300 0
          [Cmd.text {}, Cmd.image { shape := some "circle" }]).1)).1 =
      saveTemplate (buildFields 400 300 0
        [Cmd.text {}, Cmd.image { shape := some "circle" }]).1 ∧
    (loadExistingFields 400 300 0
        (saveTemplate (buildFields 400 300 0
          [Cmd.text {}, Cmd.image { shape := some "circle" }]).1)).1.map
        (fun o => o.fieldData.name) =
      (buildFields 400 300 0 [Cmd.text {}, Cmd.image { shape := some "circle" }]).1.map
        (fun o => o.fieldData.name) :=
  roundtrip_amended 400 300 [Cmd.text {}, Cmd.image { shape := some "circle" }] 0
    (by
      intro cmd hc
      fin_cases hc <;>
        exact ⟨isIntO_none, isIntO_none, isIntO_none, isIntO_none⟩)

/-! ### Claim C4: snap-to-center (spec-modelled) -/

/-- C4: on every move-gesture update, when the center of the dragged object
is strictly within 6 px of the canvas center on an axis, the matching
coordinate is forced onto the center line and that guide is rendered;
otherwise the guide is absent and the coordinate is untouched —
symmetrically on both axes. -/
theorem snap_center_law (W H : ℚ) (o : DragObj) :
    ((|o.left + o.scaledW / 2 - W / 2| < 6 →
        (snapUpdate W H o).left = W / 2 - o.scaledW / 2 ∧
          (snapUpdate W H o).vGuide = true) ∧
      (¬ |o.left + o.scaledW / 2 - W / 2| < 6 →
        (snapUpdate W H o).left = o.left ∧ (snapUpdate W H o).vGuide = false)) ∧
    ((|o.top + o.scaledH / 2 - H / 2| < 6 →
        (snapUpdate W H o).top = H / 2 - o.scaledH / 2 ∧
          (snapUpdate W H o).hGuide = true) ∧
      (¬ |o.top + o.scaledH / 2 - H / 2| < 6 →
        (snapUpdate W H o).top = o.top ∧ (snapUpdate W H o).hGuide = false)) := by
  by_cases hv : |o.left + o.scaledW / 2 - W / 2| < 6 <;>
    by_cases hh : |o.top + o.scaledH / 2 - H / 2| < 6 <;>
      simp [snapUpdate, hv, hh]

/-- Witness for C4 on two drags: one 2 px off the vertical center line
(snaps, vertical guide shown) and 55 px off the horizontal one (left
alone, no guide); the other mirrored, 105 px off vertically and 1 px
off horizontally. -/
theorem snap_center_law_witness :
    (((snapUpdate 400 300 ⟨193, 200, 10, 10⟩).left = 400 / 2 - 10 / 2 ∧
        (snapUpdate 400 300 ⟨193, 200, 10, 10⟩).vGuide = true) ∧
      ((snapUpdate 400 300 ⟨193, 200, 10, 10⟩).top = 200 ∧
        (snapUpdate 400 300 ⟨193, 200, 10, 10⟩).hGuide = false)) ∧
    (((snapUpdate 400 300 ⟨300, 146, 10, 10⟩).left = 300 ∧
        (snapUpdate 400 300 ⟨300, 146, 10, 10⟩).vGuide = false) ∧
      ((snapUpdate 400 300 ⟨300, 146, 10, 10⟩).top = 300 / 2 - 10 / 2 ∧
        (snapUpdate 400 300 ⟨300, 146, 10, 10⟩).hGuide = true)) :=
  ⟨⟨(snap_center_law 400 300 ⟨193, 200, 10, 10⟩).1.1 (by rw [abs_lt]; norm_num),
    (snap_center_law 400 300 ⟨193, 200, 10, 10⟩).2.2 (by rw [abs_lt]; norm_num)⟩,
   ⟨(snap_center_law 400 300 ⟨300, 146, 10, 10⟩).1.2 (by rw [abs_lt]; norm_num),
    (snap_center_law 400 300 ⟨300, 146, 10, 10⟩).2.1 (by rw [abs_lt]; norm_num)⟩⟩

/-! ### Claim C10: circle image fields always serialize width = height -/

/-- C10: every circle image field serializes with `width = height`,
both the rounded diameter `radius * 2`; `updateImageSize` collapses any
`(width, height)` input pair on a circle to the single radius
`min(width, height) / 2`, and circle creation does the same with the
config sizes. -/
theorem circle_width_eq_height (o : CObj) (wIn hIn : Option ℤ) (W H : ℚ) (cnt : ℕ)
    (c : Config) (himg : o.fieldData.type = "image") (hcirc : o.ctype = "circle")
    (hshape : orS c.shape "rect" = "circle") :
    ((serializeField o).width = (serializeField o).height ∧
      (serializeField o).width = some ((jsRound (o.radius * 2) : ℤ) : ℚ)) ∧
    (updateImageSize o wIn hIn).radius = ((min (orZ wIn 150) (orZ hIn 150) : ℤ) : ℚ) / 2 ∧
    (createImageField W H cnt c).1.radius =
      min (orQ c.width 150) (orQ c.height 150) / 2 := by
  have hnt : ¬ o.fieldData.type = "text" := by rw [himg]; decide
  refine ⟨⟨?_, ?_⟩, ?_, ?_⟩
  · simp [serializeField, hnt, hcirc]
  · simp [serializeField, hnt, hcirc]
  · simp [updateImageSize, himg, hcirc]
  · simp [createImageField, hshape]

/-- Witness for C10 on a concrete circle with distinct width/height
inputs 80 and 60. -/
theorem circle_width_eq_height_witness :
    ((serializeField circObjW).width = (serializeField circObjW).height ∧
      (serializeField circObjW).width = some ((jsRound (circObjW.radius * 2) : ℤ) : ℚ)) ∧
    (updateImageSize circObjW (some 80) (some 60)).radius =
      ((min (orZ (some 80) 150) (orZ (some 60) 150) : ℤ) : ℚ) / 2 ∧
    (createImageField 400 300 0
        { width := some 80, height := some 60, shape := some "circle" }).1.radius =
      min (orQ (some 80) 150) (orQ (some 60) 150) / 2 :=
  circle_width_eq_height circObjW (some 80) (some 60) 400 300 0
    { width := some 80, height := some 60, shape := some "circle" } rfl rfl (by decide)

/-! ### Claim C3: shape of serialized records -/

/-- C3 (counterexample to the claim as stated): serialized circle sizes
ignore the scale factor.  For a circle of radius 50 scaled ×2 the
resolved post-scale width is `width * scaleX = 200`, but `saveTemplate`
emits `round(radius * 2) = 100`. -/
theorem serialize_scaled_circle_cex :
    (serializeField circScaledW).width ≠
      some ((jsRound (circScaledW.width * circScaledW.scaleX) : ℤ) : ℚ) := by
  have h1 : jsRound (circScaledW.radius * 2) = 100 := by
    have : circScaledW.radius * 2 = 100 := by norm_num [circScaledW, circObjW]
    rw [this]
    exact jsRound_eq_of _ _ (by norm_num) (by norm_num)
  have h2 : jsRound (circScaledW.width * circScaledW.scaleX) = 200 := by
    have : circScaledW.width * circScaledW.scaleX = 200 := by norm_num [circScaledW, circObjW]
    rw [this]
    exact jsRound_eq_of _ _ (by norm_num) (by norm_num)
  have htype : circScaledW.fieldData.type = "image" := rfl
  have hnt : ¬ circScaledW.fieldData.type = "text" := by rw [htype]; decide
  have hct : circScaledW.ctype = "circle" := rfl
  simp only [serializeField, hnt, if_false, hct, if_true, if_pos, h1, h2]
  intro h
  have := Option.some.inj h
  norm_num at this

/-- C3 (amended): every serialized record carries `field_name`,
`field_type` and rounded `x`, `y`; a text field additionally carries
`font_size`, `color`, `font_family`, `align` and no size keys; an image
field carries `shape` and integer `width`, `height`, which are the
post-scale resolved sizes for rect-shaped fields but `round(radius*2)`
— the scale factor ignored — for circles. -/
theorem serialize_record_shape (o : CObj) :
    ((serializeField o).field_name = some o.fieldData.name ∧
      (serializeField o).field_type = some o.fieldData.type ∧
      (serializeField o).x = some ((jsRound o.left : ℤ) : ℚ) ∧
      (serializeField o).y = some ((jsRound o.top : ℤ) : ℚ)) ∧
    (o.fieldData.type = "text" →
      (serializeField o).font_size = some (if o.fontSize = 0 then 32 else o.fontSize) ∧
      (serializeField o).color = some (orS1 o.fill "#ffffff") ∧
      (serializeField o).font_family = some (orS o.fieldData.font_family "default") ∧
      (serializeField o).align = some (orS o.fieldData.align (orS1 o.textAlign "left")) ∧
      (serializeField o).width = none ∧ (serializeField o).height = none) ∧
    (o.fieldData.type = "image" →
      (serializeField o).shape = some (orS o.fieldData.shape "rect") ∧
      (¬ o.ctype = "circle" →
        (serializeField o).width = some ((jsRound (o.width * o.scaleX) : ℤ) : ℚ) ∧
        (serializeField o).height = some ((jsRound (o.height * o.scaleY) : ℤ) : ℚ)) ∧
      (o.ctype = "circle" →
        (serializeField o).width = some ((jsRound (o.radius * 2) : ℤ) : ℚ) ∧
        (serializeField o).height = some ((jsRound (o.radius * 2) : ℤ) : ℚ))) := by
  refine ⟨?_, fun ht => ?_, fun ht => ?_⟩
  · by_cases ht : o.fieldData.type = "text" <;> simp [serializeField, ht]
  · simp [serializeField, ht]
  · have hnt : ¬ o.fieldData.type = "text" := by rw [ht]; decide
    refine ⟨by simp [serializeField, hnt], fun hc => ?_, fun hc => ?_⟩ <;>
      simp [serializeField, hnt, hc]

/-- Witness for C3 (amended) at a text field, a rect image field and a
scaled circle. -/
theorem serialize_record_shape_witness :
    ((serializeField txtObjW).font_size =
        some (if txtObjW.fontSize = 0 then 32 else txtObjW.fontSize) ∧
      (serializeField txtObjW).width = none) ∧
    ((serializeField imgObjW).width =
        some ((jsRound (imgObjW.width * imgObjW.scaleX) : ℤ) : ℚ)) ∧
    ((serializeField circScaledW).width =
        some ((jsRound (circScaledW.radius * 2) : ℤ) : ℚ)) :=
  ⟨⟨((serialize_record_shape txtObjW).2.1 rfl).1,
    ((serialize_record_shape txtObjW).2.1 rfl).2.2.2.2.1⟩,
   (((serialize_record_shape imgObjW).2.2 rfl).2.1 (by decide)).1,
   (((serialize_record_shape circScaledW).2.2 rfl).2.2 rfl).1⟩

/-! ### Claim C9: hydration skips unknown record types -/

/-- C9 (counterexample to the claim as stated): a record whose
`field_type` is missing is "neither text nor image", yet
`loadExistingFields` does not skip it — `field.field_type || "text"`
defaults it to a text field, so loading it yields one more field than
loading nothing. -/
theorem hydrate_missing_type_cex :
    (loadExistingFields 400 300 0 [({} : Config)]).1 ≠
      (loadExistingFields 400 300 0 []).1 := by
  simp [loadExistingFields, hydrateRecord, orS]

/-- C9 (amended): a record whose `field_type` is a non-empty string
other than `"text"` and `"image"` is skipped, and the remaining records
load exactly as they would without it (a missing or empty `field_type`
is instead defaulted to `"text"`, not skipped). -/
theorem hydrate_skips_unknown (W H : ℚ) (cnt : ℕ) (r : Config) (rs : List Config)
    (s : String) (hs : r.field_type = some s) (h1 : s ≠ "") (h2 : s ≠ "text")
    (h3 : s ≠ "image") :
    loadExistingFields W H cnt (r :: rs) = loadExistingFields W H cnt rs := by
  have hft : orS r.field_type "text" = s := by simp [orS, hs, h1]
  simp [loadExistingFields, hydrateRecord, hft, h2, h3]

/-- Witness for C9 (amended): an unknown `"shape"` record in front of a
text record is dropped while the text record still loads. -/
theorem hydrate_skips_unknown_witness :
    loadExistingFields 400 300 0
        [{ field_type := some "shape" }, { field_type := some "text" }] =
      loadExistingFields 400 300 0 [{ field_type := some "text" }] :=
  hydrate_skips_unknown 400 300 0 { field_type := some "shape" }
    [{ field_type := some "text" }] "shape" rfl (by decide) (by decide) (by decide)

/-! ### Claim C5: field identifier uniqueness -/

/-- C5 (counterexample to the claim as stated): the identifier of a
field in `builder.js` is `fieldData.name`, and creation honours a
caller-supplied `name` verbatim — two `createTextField` calls with
`name: "a"` produce two fields with the same identifier. -/
theorem create_ids_duplicate_cex :
    ¬ ((buildFields 400 300 0
          [Cmd.text { name := some "a" }, Cmd.text { name := some "a" }]).1.map
        (fun o => o.fieldData.name)).Nodup := by
  have hnames : (buildFields 400 300 0
      [Cmd.text { name := some "a" }, Cmd.text { name := some "a" }]).1.map
        (fun o => o.fieldData.name) = ["a", "a"] := by
    simp [buildFields, createField, createTextField, resolveName]
  rw [hnames]
  decide

/-- C5 (amended): creation calls that supply no explicit `name` /
`field_name` (the toolbar path, which is the only id-generating path)
always produce pairwise distinct identifiers, because the generated
name embeds the strictly increasing `fieldCounter`; uniqueness is not
guaranteed once configs supply explicit names. -/
theorem create_ids_unique (W H : ℚ) (cmds : List Cmd) (h : ∀ cmd ∈ cmds, cmd.anon) :
    ((buildFields W H 0 cmds).1.map (fun o => o.fieldData.name)).Nodup := by
  rw [buildFields_names W H cmds 0 h]
  exact namesFrom_nodup cmds 0

/-- Witness for C5 (amended): three anonymous creations yield three
distinct names. -/
theorem create_ids_unique_witness :
    ((buildFields 400 300 0 [Cmd.text {}, Cmd.image {}, Cmd.text {}]).1.map
      (fun o => o.fieldData.name)).Nodup :=
  create_ids_unique 400 300 [Cmd.text {}, Cmd.image {}, Cmd.text {}]
    (by intro cmd hc; fin_cases hc <;> exact ⟨rfl, rfl⟩)

end CertPro
